import Mathlib

/-!
Verification of the speech-analysis scoring engine (`calculateOverallScore` in
`analysis-results.tsx`). The engine is a pure function from an arbitrary
JSON-like value to a single score; we embed JavaScript number semantics
(including NaN and the infinities) over exact rationals, embed JSON values,
translate the engine definition by definition from the source, and prove the
specified properties.

Rational arithmetic is routed through `Rat.divInt` on numerators and
denominators so that every definition evaluates inside the kernel; bridge
lemmas identify these operations with Mathlib's field operations for the
abstract proofs.
-/

namespace SpeakEasy

/-! ### Kernel-computable rational arithmetic -/

/-- Addition on `ℚ` via numerators and denominators. -/
def qadd (a b : ℚ) : ℚ := Rat.divInt (a.num * b.den + b.num * a.den) (a.den * b.den)

/-- Multiplication on `ℚ` via numerators and denominators. -/
def qmul (a b : ℚ) : ℚ := Rat.divInt (a.num * b.num) (a.den * b.den)

/-- Division on `ℚ` via numerators and denominators. -/
def qdiv (a b : ℚ) : ℚ := Rat.divInt (a.num * b.den) (a.den * b.num)

/-- Negation on `ℚ` via the numerator. -/
def qneg (a : ℚ) : ℚ := Rat.divInt (-a.num) a.den

/-- Subtraction on `ℚ`. -/
def qsub (a b : ℚ) : ℚ := qadd a (qneg b)

/-- Absolute value on `ℚ`. -/
def qabs (a : ℚ) : ℚ := if a.num < 0 then qneg a else a

/-- Floor of a rational as an integer (the denominator is positive, so integer
division of the numerator by the denominator is exactly the floor). -/
def qfloorInt (a : ℚ) : ℤ := a.num / a.den

theorem qadd_eq (a b : ℚ) : qadd a b = a + b := by
  rw [qadd]
  conv_rhs => rw [← Rat.num_divInt_den a, ← Rat.num_divInt_den b]
  rw [Rat.divInt_add_divInt _ _ (by exact_mod_cast a.den_nz) (by exact_mod_cast b.den_nz)]

theorem qmul_eq (a b : ℚ) : qmul a b = a * b := by
  rw [qmul]
  conv_rhs => rw [← Rat.num_divInt_den a, ← Rat.num_divInt_den b]
  rw [Rat.divInt_mul_divInt']

theorem qdiv_eq (a b : ℚ) : qdiv a b = a / b := by
  rw [qdiv, Rat.div_def']

theorem qneg_eq (a : ℚ) : qneg a = -a := by
  rw [qneg, Rat.neg_def]

theorem qsub_eq (a b : ℚ) : qsub a b = a - b := by
  rw [qsub, qadd_eq, qneg_eq, sub_eq_add_neg]

theorem qabs_eq (a : ℚ) : qabs a = |a| := by
  rw [qabs]
  rcases lt_or_le a.num 0 with h | h
  · have ha : a < 0 := by rwa [← not_le, ← Rat.num_nonneg, not_le]
    rw [if_pos h, qneg_eq, abs_of_neg ha]
  · have ha : 0 ≤ a := Rat.num_nonneg.mp h
    rw [if_neg (not_lt.mpr h), abs_of_nonneg ha]

theorem qfloorInt_eq (a : ℚ) : qfloorInt a = ⌊a⌋ := by
  rw [qfloorInt, Rat.floor_def]

/-! ### JavaScript number semantics

A JavaScript number is a finite value, an infinity, or `NaN`.  Finite doubles
are modelled as exact rationals.  The arithmetic, comparison, `Math.min`,
`Math.max`, `Math.abs` and `Math.round` operations below follow the IEEE rules
JavaScript uses for special values: every comparison involving `NaN` is false,
`Math.min`/`Math.max` propagate `NaN`, `∞ - ∞`, `0 · ∞`, `∞ / ∞` and `0 / 0`
are `NaN`, and `Math.round x = ⌊x + 1/2⌋`.  Signed zero is not distinguished. -/

inductive JNum where
  | fin (q : ℚ)
  | posInf
  | negInf
  | nan
deriving DecidableEq

/-- JavaScript `isNaN`. -/
def JNum.isNaN : JNum → Bool
  | .nan => true
  | _ => false

/-- JavaScript `isFinite`. -/
def JNum.isFinite : JNum → Bool
  | .fin _ => true
  | _ => false

/-- Truthiness of a number: everything except `0` and `NaN`. -/
def JNum.truthy : JNum → Bool
  | .fin q => decide (q ≠ 0)
  | .nan => false
  | _ => true

/-- JavaScript `<=` on numbers (false whenever `NaN` is involved). -/
def JNum.jle : JNum → JNum → Bool
  | .nan, _ => false
  | _, .nan => false
  | .negInf, _ => true
  | _, .negInf => false
  | _, .posInf => true
  | .posInf, _ => false
  | .fin a, .fin b => decide (a ≤ b)

/-- JavaScript `<` on numbers (false whenever `NaN` is involved). -/
def JNum.jlt : JNum → JNum → Bool
  | .nan, _ => false
  | _, .nan => false
  | .posInf, _ => false
  | .negInf, .negInf => false
  | .negInf, _ => true
  | _, .posInf => true
  | _, .negInf => false
  | .fin a, .fin b => decide (a < b)

/-- JavaScript addition. -/
def JNum.jadd : JNum → JNum → JNum
  | .nan, _ => .nan
  | _, .nan => .nan
  | .posInf, .negInf => .nan
  | .negInf, .posInf => .nan
  | .posInf, _ => .posInf
  | _, .posInf => .posInf
  | .negInf, _ => .negInf
  | _, .negInf => .negInf
  | .fin a, .fin b => .fin (qadd a b)

/-- JavaScript subtraction. -/
def JNum.jsub : JNum → JNum → JNum
  | .nan, _ => .nan
  | _, .nan => .nan
  | .posInf, .posInf => .nan
  | .negInf, .negInf => .nan
  | .posInf, _ => .posInf
  | _, .posInf => .negInf
  | .negInf, _ => .negInf
  | _, .negInf => .posInf
  | .fin a, .fin b => .fin (qsub a b)

/-- JavaScript multiplication. -/
def JNum.jmul : JNum → JNum → JNum
  | .nan, _ => .nan
  | _, .nan => .nan
  | .posInf, .posInf => .posInf
  | .posInf, .negInf => .negInf
  | .negInf, .posInf => .negInf
  | .negInf, .negInf => .posInf
  | .posInf, .fin q => if q = 0 then .nan else if 0 < q then .posInf else .negInf
  | .fin q, .posInf => if q = 0 then .nan else if 0 < q then .posInf else .negInf
  | .negInf, .fin q => if q = 0 then .nan else if 0 < q then .negInf else .posInf
  | .fin q, .negInf => if q = 0 then .nan else if 0 < q then .negInf else .posInf
  | .fin a, .fin b => .fin (qmul a b)

/-- JavaScript division (signed zero ignored: finite / ±∞ is `0`). -/
def JNum.jdiv : JNum → JNum → JNum
  | .nan, _ => .nan
  | _, .nan => .nan
  | .posInf, .posInf => .nan
  | .posInf, .negInf => .nan
  | .negInf, .posInf => .nan
  | .negInf, .negInf => .nan
  | .posInf, .fin q => if 0 ≤ q then .posInf else .negInf
  | .negInf, .fin q => if 0 ≤ q then .negInf else .posInf
  | .fin _, .posInf => .fin 0
  | .fin _, .negInf => .fin 0
  | .fin a, .fin b =>
    if b = 0 then (if a = 0 then .nan else if 0 < a then .posInf else .negInf)
    else .fin (qdiv a b)

/-- JavaScript `Math.abs`. -/
def JNum.jabs : JNum → JNum
  | .nan => .nan
  | .posInf => .posInf
  | .negInf => .posInf
  | .fin q => .fin (qabs q)

/-- JavaScript `Math.min` (`NaN` if either argument is `NaN`). -/
def JNum.jmin (a b : JNum) : JNum :=
  if a.isNaN || b.isNaN then .nan else if a.jle b then a else b

/-- JavaScript `Math.max` (`NaN` if either argument is `NaN`). -/
def JNum.jmax (a b : JNum) : JNum :=
  if a.isNaN || b.isNaN then .nan else if a.jle b then b else a

/-- JavaScript `Math.round`: half-way cases round toward positive infinity. -/
def JNum.jround : JNum → JNum
  | .nan => .nan
  | .posInf => .posInf
  | .negInf => .negInf
  | .fin q => .fin (Rat.divInt (qfloorInt (qadd q (Rat.divInt 1 2))) 1)

/-! ### JSON-like values

The analysis response is an arbitrary JSON-like value: numbers (including the
special ones), strings, booleans, `null`, `undefined`, arrays, and objects
given as lists of key/value entries in insertion order with pairwise distinct
keys (lookup takes the first matching entry). -/

inductive JsonValue where
  | num (n : JNum)
  | str (s : String)
  | bool (b : Bool)
  | null
  | undefined
  | arr (xs : List JsonValue)
  | obj (fields : List (String × JsonValue))

/-- JavaScript truthiness of a value. -/
def JsonValue.truthy : JsonValue → Bool
  | .num n => n.truthy
  | .str s => !(s == "")
  | .bool b => b
  | .null => false
  | .undefined => false
  | .arr _ => true
  | .obj _ => true

/-- The check `typeof results === "object" && results !== null` from the
component: objects and arrays qualify, every other value does not. -/
def isJsonResponse : JsonValue → Bool
  | .obj _ => true
  | .arr _ => true
  | _ => false

/-- Is the value `null` or `undefined` (JavaScript `v == null`)? -/
def isNullish : JsonValue → Bool
  | .null => true
  | .undefined => true
  | _ => false

/-! String-to-number coercion, as performed by JavaScript `Number()` on
strings: surrounding whitespace is trimmed, the empty string is `0`,
`Infinity` with optional sign is infinite, unsigned `0x`/`0o`/`0b` literals
use the corresponding radix, and otherwise an optionally signed decimal
literal with optional fraction and exponent is parsed; anything else is
`NaN`.  (The trimmed whitespace set is the ASCII one plus NBSP.) -/

/-- Whitespace characters trimmed by `Number()` (ASCII subset plus NBSP). -/
def isJsWhitespaceChar (c : Char) : Bool :=
  c == ' ' || c == '\t' || c == '\n' || c == '\r' || c.toNat == 11 || c.toNat == 12 ||
    c.toNat == 160

/-- Value of a digit character in the given radix, if valid. -/
def digitVal (radix : ℕ) (c : Char) : Option ℕ :=
  let v : Option ℕ :=
    if c.isDigit then some (c.toNat - 48)
    else if 'a' ≤ c ∧ c ≤ 'z' then some (c.toNat - 87)
    else if 'A' ≤ c ∧ c ≤ 'Z' then some (c.toNat - 55)
    else none
  match v with
  | some d => if d < radix then some d else none
  | none => none

/-- Parse a nonempty all-digit string in the given radix. -/
def radixDigits (radix : ℕ) (cs : List Char) : Option ℕ :=
  if cs.isEmpty then none
  else
    cs.foldl
      (fun acc c =>
        match acc, digitVal radix c with
        | some a, some d => some (a * radix + d)
        | _, _ => none)
      (some 0)

/-- Parse a nonempty decimal digit string. -/
def decDigits (cs : List Char) : Option ℕ := radixDigits 10 cs

/-- Parse a decimal mantissa: digits, optionally with one decimal point, with
at least one digit overall. -/
def parseDecMantissa (cs : List Char) : Option ℚ :=
  match cs.span (fun c => c != '.') with
  | (ip, []) => (decDigits ip).map (fun n => Rat.divInt n 1)
  | (ip, _ :: fp) =>
    if fp.any (fun c => c == '.') then none
    else if ip.isEmpty && fp.isEmpty then none
    else if (!ip.isEmpty && (decDigits ip).isNone) || (!fp.isEmpty && (decDigits fp).isNone)
    then none
    else qadd (Rat.divInt ((decDigits ip).getD 0) 1)
        (Rat.divInt ((decDigits fp).getD 0) (10 ^ fp.length))

/-- Parse an optionally signed decimal exponent. -/
def parseSignedExponent (cs : List Char) : Option ℤ :=
  match cs with
  | '+' :: rest => (decDigits rest).map (fun n => (n : ℤ))
  | '-' :: rest => (decDigits rest).map (fun n => -(n : ℤ))
  | _ => (decDigits cs).map (fun n => (n : ℤ))

/-- Scale a rational by a (possibly negative) power of ten, computably. -/
def scalePow10 (m : ℚ) (e : ℤ) : ℚ :=
  match e with
  | .ofNat k => qmul m (Rat.divInt (10 ^ k) 1)
  | .negSucc k => qdiv m (Rat.divInt (10 ^ (k + 1)) 1)

/-- Parse a decimal literal with optional exponent. -/
def parseDecimal (cs : List Char) : Option ℚ :=
  match cs.span (fun c => c != 'e' && c != 'E') with
  | (mant, []) => parseDecMantissa mant
  | (mant, _ :: exp) =>
    match parseDecMantissa mant, parseSignedExponent exp with
    | some m, some e => some (scalePow10 m e)
    | _, _ => none

/-- Parse an unsigned radix-prefixed or signed decimal body (`Infinity`
handled by the caller). -/
def signedDecimalNum (neg : Bool) (body : List Char) : JNum :=
  if body = "Infinity".data then (if neg then JNum.negInf else JNum.posInf)
  else
    match parseDecimal body with
    | some q => .fin (if neg then qneg q else q)
    | none => .nan

/-- JavaScript `Number()` applied to a string. -/
def jsStringToNumber (s : String) : JNum :=
  let cs := ((s.data.dropWhile isJsWhitespaceChar).reverse.dropWhile isJsWhitespaceChar).reverse
  match cs with
  | [] => .fin 0
  | '0' :: 'x' :: r => match radixDigits 16 r with | some n => .fin (Rat.divInt n 1) | none => .nan
  | '0' :: 'X' :: r => match radixDigits 16 r with | some n => .fin (Rat.divInt n 1) | none => .nan
  | '0' :: 'o' :: r => match radixDigits 8 r with | some n => .fin (Rat.divInt n 1) | none => .nan
  | '0' :: 'O' :: r => match radixDigits 8 r with | some n => .fin (Rat.divInt n 1) | none => .nan
  | '0' :: 'b' :: r => match radixDigits 2 r with | some n => .fin (Rat.divInt n 1) | none => .nan
  | '0' :: 'B' :: r => match radixDigits 2 r with | some n => .fin (Rat.divInt n 1) | none => .nan
  | '+' :: body => signedDecimalNum false body
  | '-' :: body => signedDecimalNum true body
  | body => signedDecimalNum false body

/-- JavaScript `Number()` coercion of a value.  Arrays go through string
conversion: the empty array is `0`, a one-element array coerces like its
element (with `[null]` and `[undefined]` giving `0` and `[true]`/`[false]`
giving `NaN` since `"true"` is not numeric), longer arrays and nested
singleton arrays are modelled as `NaN`; plain objects are `NaN`. -/
def JsonValue.toNumber : JsonValue → JNum
  | .num n => n
  | .str s => jsStringToNumber s
  | .bool b => .fin (if b then 1 else 0)
  | .null => .fin 0
  | .undefined => .nan
  | .obj _ => .nan
  | .arr [] => .fin 0
  | .arr [.num n] => n
  | .arr [.str s] => jsStringToNumber s
  | .arr [.null] => .fin 0
  | .arr [.undefined] => .fin 0
  | .arr _ => .nan

/-- `Number()` of an optional value, where `none` stands for a lookup that
returned `undefined`. -/
def optToNumber (o : Option JsonValue) : JNum := (o.getD .undefined).toNumber

/-! ### Key lookup (`fromKeys`) -/

/-- First entry of the association list with the given key. -/
def lookupField (fields : List (String × JsonValue)) (k : String) : Option JsonValue :=
  (fields.find? (fun p => p.1 == k)).map (fun p => p.2)

/-- One `fromKeys` probe against the top level:
`hasOwnProperty(analysisData, k) && analysisData[k] != null`. -/
def getOwn (x : JsonValue) (k : String) : Option JsonValue :=
  match x with
  | .obj fields =>
    match lookupField fields k with
    | some v => if isNullish v then none else some v
    | none => none
  | _ => none

/-- One `fromKeys` probe against the nested `metrics` mapping:
`analysisData?.metrics && hasOwnProperty(analysisData.metrics, k) &&
analysisData.metrics[k] != null`.  A non-object `metrics` value is either
falsy or has no own property named like a metric, so only an object
`metrics` can produce a hit for the keys the engine asks about. -/
def getFromMetrics (x : JsonValue) (k : String) : Option JsonValue :=
  match x with
  | .obj fields =>
    match lookupField fields "metrics" with
    | some (.obj mfields) =>
      match lookupField mfields k with
      | some v => if isNullish v then none else some v
      | none => none
    | _ => none
  | _ => none

/-- `fromKeys`: try each candidate key in order, first against the top-level
record, then against `record.metrics`; first hit wins. -/
def fromKeys (x : JsonValue) : List String → Option JsonValue
  | [] => none
  | k :: rest =>
    match getOwn x k with
    | some v => some v
    | none =>
      match getFromMetrics x k with
      | some v => some v
      | none => fromKeys x rest

/-- `Object.keys(x).length`: number of distinct own keys for an object,
number of indices for an array (only reached for objects and arrays). -/
def JsonValue.objKeysLength : JsonValue → ℕ
  | .obj fields => ((fields.map Prod.fst).dedup).length
  | .arr xs => xs.length
  | _ => 0

/-! ### The scoring engine -/

/-- `clip(v, min, max) = Math.max(min, Math.min(max, v))`. -/
def clip (v lo hi : JNum) : JNum := JNum.jmax lo (JNum.jmin hi v)

/-- ASCII lower-casing, as `toLowerCase` acts on the rating vocabulary. -/
def jsToLowerCase (s : String) : String := String.mk (s.data.map Char.toLower)

/-- JavaScript `String.prototype.trim` (ASCII whitespace subset plus NBSP). -/
def jsTrim (s : String) : String :=
  String.mk (((s.data.dropWhile isJsWhitespaceChar).reverse.dropWhile isJsWhitespaceChar).reverse)

/-- The fixed rating vocabulary. -/
def ratingMap (k : String) : Option ℚ :=
  if k == "excellent" then some 95
  else if k == "very good" then some 88
  else if k == "good" then some 78
  else if k == "fair" then some 65
  else if k == "poor" then some 45
  else if k == "very poor" then some 25
  else if k == "high" then some 85
  else if k == "medium" then some 65
  else if k == "low" then some 45
  else if k == "positive" then some 80
  else if k == "neutral" then some 60
  else if k == "negative" then some 40
  else none

/-- `normalizeNumberOrRating`: strings go through the rating vocabulary
(lower-cased and trimmed; a miss is "absent"); numbers are scale-detected:
`[0,1]` is scaled by 100, `(1,5]` by `v/5*100`, `(5,10]` by `v/10*100`, and
everything else (including negatives, `NaN` and the infinities, whose
comparisons are all false) falls through to `clip(v)`. -/
def normalizeNumberOrRating (v : Option JsonValue) : Option JNum :=
  match v with
  | none => none
  | some .null => none
  | some .undefined => none
  | some (.str s) => (ratingMap (jsTrim (jsToLowerCase s))).map JNum.fin
  | some (.num n) =>
    if (JNum.fin 0).jle n && n.jle (.fin 1) then some (n.jmul (.fin 100))
    else if (JNum.fin 1).jlt n && n.jle (.fin 5) then some ((n.jdiv (.fin 5)).jmul (.fin 100))
    else if (JNum.fin 5).jlt n && n.jle (.fin 10) then some ((n.jdiv (.fin 10)).jmul (.fin 100))
    else if (JNum.fin 10).jlt n && n.jle (.fin 100) then some (clip n (.fin 0) (.fin 100))
    else some (clip n (.fin 0) (.fin 100))
  | some _ => none

/-- `triangularScore(value, target, tolerance)`: `undefined` on `NaN`,
otherwise `Math.round(clip(1 - |value - target| / tolerance, 0, 1) * 100)`.
(The `value == null` guard of the source is subsumed: every caller passes a
coerced number.) -/
def triangularScore (value target tolerance : JNum) : Option JNum :=
  if value.isNaN then none
  else
    some
      (((clip ((JNum.fin 1).jsub (((value.jsub target).jabs).jdiv tolerance)) (.fin 0)
            (.fin 1)).jmul
          (.fin 100)).jround)

/-- `Number(fromKeys("wordCount", "words"))`. -/
def wordCount (x : JsonValue) : JNum := optToNumber (fromKeys x ["wordCount", "words"])

/-- `Number(fromKeys("duration", "durationSec", "seconds"))`. -/
def durationSec (x : JsonValue) : JNum :=
  optToNumber (fromKeys x ["duration", "durationSec", "seconds"])

/-- The raw words-per-minute value before the derivation fallback. -/
def wpmRaw (x : JsonValue) : JNum :=
  optToNumber (fromKeys x ["wordsPerMinute", "wpm", "paceWpm", "speech_rate", "rate"])

/-- `wpm` after the fallback: if the raw value is falsy or `NaN` and both
`wordCount` and a positive `duration` are available, derive
`wordCount / duration * 60`. -/
def wpm (x : JsonValue) : JNum :=
  if (!(wpmRaw x).truthy || (wpmRaw x).isNaN) && (wordCount x).truthy && (durationSec x).truthy &&
      (JNum.fin 0).jlt (durationSec x)
  then ((wordCount x).jdiv (durationSec x)).jmul (.fin 60)
  else wpmRaw x

/-- The raw filler-word rate before the derivation fallback. -/
def fillerRateRaw (x : JsonValue) : JNum :=
  optToNumber (fromKeys x ["fillerWordRate", "fillerRate"])

/-- `Number(fromKeys("fillerWordCount", "fillerCount", "umUhCount"))`. -/
def fillerCount (x : JsonValue) : JNum :=
  optToNumber (fromKeys x ["fillerWordCount", "fillerCount", "umUhCount"])

/-- `fillerRate` after the fallback: if the raw rate is not finite and both a
filler count and a word count are truthy, derive `fillerCount / wordCount`. -/
def fillerRate (x : JsonValue) : JNum :=
  if ((fillerRateRaw x).isNaN || !(fillerRateRaw x).isFinite) && (fillerCount x).truthy &&
      (wordCount x).truthy
  then (fillerCount x).jdiv (wordCount x)
  else fillerRateRaw x

/-- `Number(fromKeys("pausesPerMinute", "pauseRate", "pauses_pm"))`. -/
def pausesPerMinute (x : JsonValue) : JNum :=
  optToNumber (fromKeys x ["pausesPerMinute", "pauseRate", "pauses_pm"])

/-- `fromKeys("volume", "loudness", "rms")` (raw value, any type). -/
def volume (x : JsonValue) : Option JsonValue := fromKeys x ["volume", "loudness", "rms"]

/-- `fromKeys("sentiment", "polarity")` (raw value, any type). -/
def sentiment (x : JsonValue) : Option JsonValue := fromKeys x ["sentiment", "polarity"]

/-- Normalized `clarity` component. -/
def clarityVal (x : JsonValue) : Option JNum := normalizeNumberOrRating (fromKeys x ["clarity"])

/-- Normalized `confidence` component. -/
def confidenceVal (x : JsonValue) : Option JNum :=
  normalizeNumberOrRating (fromKeys x ["confidence"])

/-- Normalized `articulation` component. -/
def articulationVal (x : JsonValue) : Option JNum :=
  normalizeNumberOrRating (fromKeys x ["articulation"])

/-- Normalized `fluency` component. -/
def fluencyVal (x : JsonValue) : Option JNum := normalizeNumberOrRating (fromKeys x ["fluency"])

/-- Normalized `coherence` component. -/
def coherenceVal (x : JsonValue) : Option JNum :=
  normalizeNumberOrRating (fromKeys x ["coherence"])

/-- Normalized `engagement` component. -/
def engagementVal (x : JsonValue) : Option JNum :=
  normalizeNumberOrRating (fromKeys x ["engagement"])

/-- Normalized `pronunciation` component. -/
def pronunciationVal (x : JsonValue) : Option JNum :=
  normalizeNumberOrRating (fromKeys x ["pronunciation"])

/-- Normalized `intonation` component. -/
def intonationVal (x : JsonValue) : Option JNum :=
  normalizeNumberOrRating (fromKeys x ["intonation"])

/-- `paceScore = wpm != null && isFinite(wpm) ? triangularScore(wpm, 150, 50)
: undefined`. -/
def paceScore (x : JsonValue) : Option JNum :=
  if (wpm x).isFinite then triangularScore (wpm x) (.fin 150) (.fin 50) else none

/-- `pausesScore`: triangular around 6 pauses per minute with tolerance 5. -/
def pausesScore (x : JsonValue) : Option JNum :=
  if (pausesPerMinute x).isFinite then triangularScore (pausesPerMinute x) (.fin 6) (.fin 5)
  else none

/-- `volumeScore = normalizeNumberOrRating(volume) ?? triangularScore(Number(volume), 60, 25)`. -/
def volumeScore (x : JsonValue) : Option JNum :=
  match normalizeNumberOrRating (volume x) with
  | some s => some s
  | none => triangularScore (optToNumber (volume x)) (.fin 60) (.fin 25)

/-- `fillerScore`: for a finite rate, `clip(100 - (clip(rate*100)/5)*100)`. -/
def fillerScore (x : JsonValue) : Option JNum :=
  if (fillerRate x).isFinite then
    some
      (clip
        ((JNum.fin 100).jsub
          (((clip ((fillerRate x).jmul (.fin 100)) (.fin 0) (.fin 100)).jdiv (.fin 5)).jmul
            (.fin 100)))
        (.fin 0) (.fin 100))
  else none

/-- `sentimentScore`: a string goes through the rating vocabulary (lower-cased,
not trimmed, defaulting to 60 on a miss); a number is mapped from `[-1,1]` to
`[0,100]` and clipped. -/
def sentimentScore (x : JsonValue) : Option JNum :=
  match sentiment x with
  | some (.str s) => some (.fin ((ratingMap (jsToLowerCase s)).getD 60))
  | some (.num n) => some (clip (((n.jadd (.fin 1)).jdiv (.fin 2)).jmul (.fin 100)) (.fin 0) (.fin 100))
  | _ => none

/-- The running accumulator `acc = { sum, w, n }`. -/
structure Acc where
  sum : JNum
  w : ℚ
  n : ℕ
deriving DecidableEq

/-- `add(score, key)`: skip `undefined` and `NaN` scores, otherwise add
`clip(score) * weight` to the sum and the weight to the total. -/
def add (acc : Acc) (score : Option JNum) (weight : ℚ) : Acc :=
  match score with
  | none => acc
  | some s =>
    if s.isNaN then acc
    else
      { sum := acc.sum.jadd ((clip s (.fin 0) (.fin 100)).jmul (.fin weight)),
        w := qadd acc.w weight, n := acc.n + 1 }

/-- The thirteen `add` calls of the engine, in source order, with the fixed
weights. -/
def componentScores (x : JsonValue) : List (Option JNum × ℚ) :=
  [(clarityVal x, Rat.divInt 12 100), (confidenceVal x, Rat.divInt 12 100),
    (fluencyVal x, Rat.divInt 10 100), (articulationVal x, Rat.divInt 8 100),
    (coherenceVal x, Rat.divInt 8 100), (engagementVal x, Rat.divInt 6 100),
    (pronunciationVal x, Rat.divInt 8 100), (intonationVal x, Rat.divInt 6 100),
    (paceScore x, Rat.divInt 12 100), (volumeScore x, Rat.divInt 6 100),
    (fillerScore x, Rat.divInt 6 100), (pausesScore x, Rat.divInt 6 100),
    (sentimentScore x, Rat.divInt 10 100)]

/-- The accumulator after all thirteen `add` calls. -/
def accOf (x : JsonValue) : Acc :=
  (componentScores x).foldl (fun a p => add a p.1 p.2) { sum := .fin 0, w := 0, n := 0 }

/-- The no-signal structural fallback on the key count. -/
def structuralFallback (x : JsonValue) : ℚ :=
  if 3 < x.objKeysLength then 70 else if 1 < x.objKeysLength then 60 else 50

/-- `overallWeighted = acc.sum / acc.w`. -/
def overallWeighted (x : JsonValue) : JNum := (accOf x).sum.jdiv (.fin (accOf x).w)

/-- `blendFactor`: 0.6 for one contributing metric, 0.3 for two, else 0. -/
def blendFactor (x : JsonValue) : ℚ :=
  if (accOf x).n = 1 then Rat.divInt 6 10 else if (accOf x).n = 2 then Rat.divInt 3 10 else 0

/-- `mixed = overallWeighted * (1 - blendFactor) + baseline * blendFactor`
with baseline 60. -/
def mixed (x : JsonValue) : JNum :=
  ((overallWeighted x).jmul (.fin (qsub 1 (blendFactor x)))).jadd
    ((JNum.fin 60).jmul (.fin (blendFactor x)))

/-- `calculateOverallScore`: fallback 50 for non-objects, the structural key
count when no metric contributed, otherwise the rounded, clipped blend. -/
def calculateOverallScore (x : JsonValue) : JNum :=
  if isJsonResponse x && x.truthy then
    if (accOf x).w = 0 then .fin (structuralFallback x)
    else (clip (mixed x) (.fin 0) (.fin 100)).jround
  else .fin 50

/-! ### Basic lemmas about `clip`, rounding and the accumulator -/

theorem JNum.isNaN_fin (q : ℚ) : (JNum.fin q).isNaN = false := rfl

theorem JNum.jle_fin_fin (a b : ℚ) : (JNum.fin a).jle (.fin b) = decide (a ≤ b) := rfl

theorem JNum.jlt_fin_fin (a b : ℚ) : (JNum.fin a).jlt (.fin b) = decide (a < b) := rfl

theorem JNum.jadd_fin_fin (a b : ℚ) : (JNum.fin a).jadd (.fin b) = .fin (qadd a b) := rfl

theorem JNum.jsub_fin_fin (a b : ℚ) : (JNum.fin a).jsub (.fin b) = .fin (qsub a b) := rfl

theorem JNum.jmul_fin_fin (a b : ℚ) : (JNum.fin a).jmul (.fin b) = .fin (qmul a b) := rfl

theorem JNum.jabs_fin (a : ℚ) : (JNum.fin a).jabs = .fin (qabs a) := rfl

theorem JNum.jdiv_fin_fin (a b : ℚ) :
    (JNum.fin a).jdiv (.fin b) =
      (if b = 0 then (if a = 0 then .nan else if 0 < a then .posInf else .negInf)
        else .fin (qdiv a b)) := rfl

theorem jmin_fin (a b : ℚ) : JNum.jmin (.fin a) (.fin b) = .fin (min a b) := by
  unfold JNum.jmin
  simp only [JNum.isNaN_fin, Bool.or_self, Bool.false_eq_true, if_false, JNum.jle_fin_fin,
    decide_eq_true_eq, min_def]
  split_ifs <;> rfl

theorem jmax_fin (a b : ℚ) : JNum.jmax (.fin a) (.fin b) = .fin (max a b) := by
  unfold JNum.jmax
  simp only [JNum.isNaN_fin, Bool.or_self, Bool.false_eq_true, if_false, JNum.jle_fin_fin,
    decide_eq_true_eq, max_def]
  split_ifs <;> rfl

theorem clip_fin (q lo hi : ℚ) : clip (.fin q) (.fin lo) (.fin hi) = .fin (max lo (min hi q)) := by
  rw [clip, jmin_fin, jmax_fin]

theorem clip_bounds (s : JNum) (h : s.isNaN = false) :
    ∃ c : ℚ, clip s (.fin 0) (.fin 100) = .fin c ∧ 0 ≤ c ∧ c ≤ 100 := by
  cases s with
  | nan => simp [JNum.isNaN] at h
  | posInf => exact ⟨100, by decide, by norm_num, le_refl _⟩
  | negInf => exact ⟨0, by decide, le_refl _, by norm_num⟩
  | fin q =>
    refine ⟨max 0 (min 100 q), clip_fin q 0 100, le_max_left _ _, ?_⟩
    exact max_le (by norm_num) (min_le_left _ _)

theorem jround_fin (m : ℚ) : JNum.jround (.fin m) = .fin ((⌊m + 1/2⌋ : ℤ) : ℚ) := by
  simp only [JNum.jround, qfloorInt_eq, qadd_eq, Rat.divInt_one]
  congr 2
  rw [Rat.divInt_eq_div]
  norm_num

/-- Invariant carried through the thirteen `add` calls: the sum is a finite
rational between `0` and `100` times the accumulated weight, and the weight is
nonnegative. -/
def AccInv (a : Acc) : Prop :=
  ∃ σ : ℚ, a.sum = .fin σ ∧ 0 ≤ σ ∧ σ ≤ 100 * a.w ∧ 0 ≤ a.w

theorem add_inv {a : Acc} (s : Option JNum) {weight : ℚ} (hw : 0 ≤ weight) (ha : AccInv a) :
    AccInv (add a s weight) := by
  obtain ⟨σ, hsum, h0, hup, hw0⟩ := ha
  match s with
  | none => exact ⟨σ, hsum, h0, hup, hw0⟩
  | some v =>
    simp only [add]
    by_cases hnan : v.isNaN = true
    · rw [if_pos hnan]
      exact ⟨σ, hsum, h0, hup, hw0⟩
    · rw [if_neg hnan]
      obtain ⟨c, hc, hc0, hc100⟩ := clip_bounds v (by simpa using hnan)
      refine ⟨σ + c * weight, ?_, ?_, ?_, ?_⟩
      · show a.sum.jadd ((clip v (.fin 0) (.fin 100)).jmul (.fin weight)) = _
        rw [hc, hsum, JNum.jmul_fin_fin, JNum.jadd_fin_fin, qmul_eq, qadd_eq]
      · exact add_nonneg h0 (mul_nonneg hc0 hw)
      · show σ + c * weight ≤ 100 * qadd a.w weight
        rw [qadd_eq]
        nlinarith
      · show 0 ≤ qadd a.w weight
        rw [qadd_eq]
        linarith

theorem foldl_add_inv (l : List (Option JNum × ℚ)) (a : Acc)
    (hl : ∀ p ∈ l, 0 ≤ p.2) (ha : AccInv a) :
    AccInv (l.foldl (fun acc p => add acc p.1 p.2) a) := by
  induction l generalizing a with
  | nil => simpa using ha
  | cons p t ih =>
    rw [List.foldl_cons]
    exact ih _ (fun r hr => hl r (List.mem_cons_of_mem _ hr))
      (add_inv p.1 (hl p (List.mem_cons_self _ _)) ha)

theorem accOf_inv (x : JsonValue) : AccInv (accOf x) := by
  rw [accOf]
  refine foldl_add_inv _ _ ?_ ⟨0, rfl, le_refl _, by norm_num, le_refl _⟩
  intro p hp
  simp only [componentScores, List.mem_cons, List.not_mem_nil, or_false] at hp
  rcases hp with rfl | rfl | rfl | rfl | rfl | rfl | rfl | rfl | rfl | rfl | rfl | rfl | rfl <;>
    norm_num [Rat.divInt_eq_div]

theorem mixed_aux (ow b : ℚ) (h0 : 0 ≤ ow) (h1 : ow ≤ 100) (hb0 : 0 ≤ b) (hb1 : b ≤ 1) :
    0 ≤ ow * (1 - b) + 60 * b ∧ ow * (1 - b) + 60 * b ≤ 100 := by
  constructor <;> nlinarith

/-- C1: for every input value, of any shape, the engine produces a finite
number that is an integer between 0 and 100. -/
theorem calculateOverallScore_inRange (x : JsonValue) :
    ∃ k : ℤ, calculateOverallScore x = .fin (k : ℚ) ∧ 0 ≤ k ∧ k ≤ 100 := by
  unfold calculateOverallScore
  by_cases hj : (isJsonResponse x && x.truthy) = true
  · rw [if_pos hj]
    by_cases hw : (accOf x).w = 0
    · rw [if_pos hw]
      unfold structuralFallback
      split_ifs
      · exact ⟨70, by norm_num, by norm_num, by norm_num⟩
      · exact ⟨60, by norm_num, by norm_num, by norm_num⟩
      · exact ⟨50, by norm_num, by norm_num, by norm_num⟩
    · rw [if_neg hw]
      obtain ⟨σ, hsum, hσ0, hσw, hw0⟩ := accOf_inv x
      have hwpos : 0 < (accOf x).w := lt_of_le_of_ne hw0 (Ne.symm hw)
      have how : overallWeighted x = .fin (σ / (accOf x).w) := by
        rw [overallWeighted, hsum, JNum.jdiv_fin_fin, if_neg hw, qdiv_eq]
      have h0 : 0 ≤ σ / (accOf x).w := div_nonneg hσ0 hw0
      have h1 : σ / (accOf x).w ≤ 100 := by
        rw [div_le_iff₀ hwpos]
        linarith
      have hb : 0 ≤ blendFactor x ∧ blendFactor x ≤ 1 := by
        unfold blendFactor
        split_ifs <;> constructor <;> decide
      have hmix : mixed x =
          .fin ((σ / (accOf x).w) * (1 - blendFactor x) + 60 * blendFactor x) := by
        rw [mixed, how]
        simp only [JNum.jmul_fin_fin, JNum.jadd_fin_fin, qsub_eq, qmul_eq, qadd_eq]
      obtain ⟨hm0, hm100⟩ := mixed_aux _ _ h0 h1 hb.1 hb.2
      rw [hmix, clip_fin, min_eq_right hm100, max_eq_right hm0, jround_fin]
      refine ⟨⌊(σ / (accOf x).w) * (1 - blendFactor x) + 60 * blendFactor x + 1/2⌋, rfl, ?_, ?_⟩
      · rw [Int.le_floor]
        push_cast
        linarith
      · have hlt : ⌊(σ / (accOf x).w) * (1 - blendFactor x) + 60 * blendFactor x + 1/2⌋ <
            (101 : ℤ) := by
          rw [Int.floor_lt]
          push_cast
          linarith
        omega
  · rw [if_neg hj]
    exact ⟨50, by norm_num, by norm_num, by norm_num⟩

/-! ### Claim theorems -/

/-- C2 counterexample: the claim says every array scores 50, but a two-element
array passes the `typeof === "object"` check, carries no recognized metric, and
lands in the key-count fallback with `Object.keys` length 2, scoring 60. -/
theorem array_scores_60_not_50 :
    calculateOverallScore (.arr [.num (.fin 1), .num (.fin 2)]) = .fin 60 ∧
      calculateOverallScore (.arr [.num (.fin 1), .num (.fin 2)]) ≠ .fin 50 := by
  constructor <;> decide

/-- C2 (amended): every input that is not an object in the `typeof` sense —
numbers, strings, booleans, `null`, `undefined`, but not arrays — scores
exactly 50, with no failure possible. -/
theorem nonObject_returns_50 (x : JsonValue) (h : isJsonResponse x = false) :
    calculateOverallScore x = .fin 50 := by
  unfold calculateOverallScore
  rw [h]
  simp

/-- C2 witness: a plain string input scores 50. -/
theorem nonObject_returns_50_witness :
    isJsonResponse (.str "error") = false ∧ calculateOverallScore (.str "error") = .fin 50 :=
  ⟨rfl, nonObject_returns_50 (.str "error") rfl⟩

/-- The record `{wordsPerMinute: 150, pausesPerMinute: 6, fillerWordRate: 0}`. -/
def exPerfect : JsonValue :=
  .obj [("wordsPerMinute", .num (.fin 150)), ("pausesPerMinute", .num (.fin 6)),
    ("fillerWordRate", .num (.fin 0))]

/-- C3: on `{wordsPerMinute: 150, pausesPerMinute: 6, fillerWordRate: 0}` the
pace, pauses and filler scores are all 100, three metrics contribute (so no
baseline blending), the accumulated weight is .12+.06+.06 = .24, the weighted
mean is 100, and the final score is exactly 100. -/
theorem perfect_three_metric_score :
    paceScore exPerfect = some (.fin 100) ∧ pausesScore exPerfect = some (.fin 100) ∧
      fillerScore exPerfect = some (.fin 100) ∧ (accOf exPerfect).n = 3 ∧
      (accOf exPerfect).w = Rat.divInt 24 100 ∧ blendFactor exPerfect = 0 ∧
      overallWeighted exPerfect = .fin 100 ∧ calculateOverallScore exPerfect = .fin 100 := by
  refine ⟨?_, ?_, ?_, ?_, ?_, ?_, ?_, ?_⟩ <;> decide

/-- The record `{clarity: "excellent", confidence: "excellent"}`. -/
def exTwoExcellent : JsonValue :=
  .obj [("clarity", .str "excellent"), ("confidence", .str "excellent")]

/-- C4: on `{clarity: "excellent", confidence: "excellent"}` both direct
metrics normalize to 95 through the rating vocabulary, the weighted mean is
95, exactly two metrics contribute so the blend factor is 0.3 toward baseline
60, and `95*0.7 + 60*0.3 = 84.5` rounds to a final score of 85. -/
theorem two_excellent_blend_85 :
    clarityVal exTwoExcellent = some (.fin 95) ∧ confidenceVal exTwoExcellent = some (.fin 95) ∧
      (accOf exTwoExcellent).n = 2 ∧ overallWeighted exTwoExcellent = .fin 95 ∧
      blendFactor exTwoExcellent = Rat.divInt 3 10 ∧
      calculateOverallScore exTwoExcellent = .fin 85 := by
  refine ⟨?_, ?_, ?_, ?_, ?_, ?_⟩ <;> decide

/-- C7: the numeric-scale auto-detection normalizes clarity 0.8 (0-1 scale),
4 (1-5 scale) and 8 (1-10 scale) all to the sub-score 80, so the three
single-metric records produce identical overall scores. -/
theorem scale_auto_detection :
    normalizeNumberOrRating (some (.num (.fin (Rat.divInt 8 10)))) = some (.fin 80) ∧
      normalizeNumberOrRating (some (.num (.fin 4))) = some (.fin 80) ∧
      normalizeNumberOrRating (some (.num (.fin 8))) = some (.fin 80) ∧
      calculateOverallScore (.obj [("clarity", .num (.fin (Rat.divInt 8 10)))]) =
        calculateOverallScore (.obj [("clarity", .num (.fin 4))]) ∧
      calculateOverallScore (.obj [("clarity", .num (.fin 4))]) =
        calculateOverallScore (.obj [("clarity", .num (.fin 8))]) := by
  refine ⟨?_, ?_, ?_, ?_, ?_⟩ <;> decide

/-- C5: whenever nothing contributed any weight, the score of a record is
decided purely by the number of its distinct top-level keys: more than 3 keys
gives 70, more than 1 gives 60, otherwise 50. -/
theorem noSignal_structural_fallback (fields : List (String × JsonValue))
    (h : (accOf (.obj fields)).w = 0) :
    calculateOverallScore (.obj fields) =
      .fin (if 3 < ((fields.map Prod.fst).dedup).length then 70
        else if 1 < ((fields.map Prod.fst).dedup).length then 60 else 50) := by
  unfold calculateOverallScore
  rw [if_pos (show (isJsonResponse (.obj fields) && (JsonValue.obj fields).truthy) = true from
    rfl)]
  rw [if_pos h]
  rfl

/-- C5 witness: a four-key record with no recognized metrics has zero
accumulated weight and scores 70; likewise the empty record scores 50 and a
two-key record scores 60 by evaluation. -/
theorem noSignal_structural_fallback_witness :
    (accOf (.obj [("a", .num (.fin 1)), ("b", .num (.fin 2)), ("c", .num (.fin 3)),
        ("d", .num (.fin 4))])).w = 0 ∧
      calculateOverallScore (.obj [("a", .num (.fin 1)), ("b", .num (.fin 2)),
        ("c", .num (.fin 3)), ("d", .num (.fin 4))]) = .fin 70 := by
  have h : (accOf (.obj [("a", .num (.fin 1)), ("b", .num (.fin 2)), ("c", .num (.fin 3)),
      ("d", .num (.fin 4))])).w = 0 := by decide
  refine ⟨h, ?_⟩
  rw [noSignal_structural_fallback _ h]
  decide

/-- C6 counterexample: in `{wordsPerMinute: 0, wordCount: 100, duration: 60}`
the `wordsPerMinute` value is present as a finite number (0), yet the engine
does not use it unchanged: `0` is falsy, so the derivation path replaces it
with `wordCount / duration * 60 = 100`. -/
theorem wpm_zero_is_replaced :
    (wpmRaw (.obj [("wordsPerMinute", .num (.fin 0)), ("wordCount", .num (.fin 100)),
        ("duration", .num (.fin 60))])).isFinite = true ∧
      wpm (.obj [("wordsPerMinute", .num (.fin 0)), ("wordCount", .num (.fin 100)),
        ("duration", .num (.fin 60))]) = .fin 100 ∧
      wpm (.obj [("wordsPerMinute", .num (.fin 0)), ("wordCount", .num (.fin 100)),
        ("duration", .num (.fin 60))]) ≠ .fin 0 := by
  refine ⟨?_, ?_, ?_⟩ <;> decide

/-- C6 (amended): the derived words-per-minute is used exactly when the raw
`wordsPerMinute` coercion is falsy (`0` or `NaN`, which covers absence) while
`wordCount` and a positive `duration` are available, in which case it equals
`wordCount / duration * 60`; when the raw value is a truthy non-`NaN` number
(including the infinities) it is used unchanged. -/
theorem wpm_selection (x : JsonValue) :
    (((wpmRaw x).truthy = false ∨ (wpmRaw x).isNaN = true) → (wordCount x).truthy = true →
        (durationSec x).truthy = true → (JNum.fin 0).jlt (durationSec x) = true →
        wpm x = ((wordCount x).jdiv (durationSec x)).jmul (.fin 60)) ∧
      ((wpmRaw x).truthy = true → (wpmRaw x).isNaN = false → wpm x = wpmRaw x) := by
  constructor
  · intro h1 h2 h3 h4
    unfold wpm
    rcases h1 with h1 | h1 <;> rw [if_pos (by simp [h1, h2, h3, h4])]
  · intro h1 h2
    unfold wpm
    rw [if_neg (by simp [h1, h2])]

/-- C6 witness: with `wordsPerMinute` absent, `{wordCount: 100, duration: 60}`
derives `wpm = 100`; with `{wordsPerMinute: 150}` the raw value is kept. -/
theorem wpm_selection_witness :
    wpm (.obj [("wordCount", .num (.fin 100)), ("duration", .num (.fin 60))]) =
        ((wordCount (.obj [("wordCount", .num (.fin 100)), ("duration", .num (.fin 60))])).jdiv
          (durationSec (.obj [("wordCount", .num (.fin 100)), ("duration", .num (.fin 60))]))).jmul
          (.fin 60) ∧
      wpm (.obj [("wordsPerMinute", .num (.fin 150))]) =
        wpmRaw (.obj [("wordsPerMinute", .num (.fin 150))]) :=
  ⟨(wpm_selection _).1 (Or.inr (by decide)) (by decide) (by decide) (by decide),
    (wpm_selection _).2 (by decide) (by decide)⟩

/-- C9: a direct-metric string outside the rating vocabulary normalizes to
"absent" and contributes neither score nor weight nor count: `add` leaves the
accumulator untouched. -/
theorem unrecognized_rating_is_absent (s : String) (a : Acc) (weight : ℚ)
    (h : ratingMap (jsTrim (jsToLowerCase s)) = none) :
    normalizeNumberOrRating (some (.str s)) = none ∧
      add a (normalizeNumberOrRating (some (.str s))) weight = a := by
  have h1 : normalizeNumberOrRating (some (.str s)) = none := by
    simp only [normalizeNumberOrRating, h]
    rfl
  refine ⟨h1, ?_⟩
  rw [h1]
  rfl

/-- C9 witness: the string "banana" misses the vocabulary and leaves a sample
accumulator unchanged. -/
theorem unrecognized_rating_is_absent_witness :
    ratingMap (jsTrim (jsToLowerCase "banana")) = none ∧
      normalizeNumberOrRating (some (.str "banana")) = none ∧
      add { sum := .fin 12, w := Rat.divInt 12 100, n := 1 }
          (normalizeNumberOrRating (some (.str "banana"))) (Rat.divInt 12 100) =
        { sum := .fin 12, w := Rat.divInt 12 100, n := 1 } := by
  have h : ratingMap (jsTrim (jsToLowerCase "banana")) = none := by decide
  exact ⟨h, unrecognized_rating_is_absent "banana"
    { sum := .fin 12, w := Rat.divInt 12 100, n := 1 } (Rat.divInt 12 100) h⟩

/-- C10 (implicit): a finite negative number for a direct metric is not
absent: it normalizes to the sub-score 0 through the final `clip` branch and
`add` still books its full weight and increments the metric count, adding 0 to
the sum (so it drags the weighted mean down). -/
theorem negative_direct_metric_contributes (q : ℚ) (a : Acc) (weight : ℚ) (h : q < 0) :
    normalizeNumberOrRating (some (.num (.fin q))) = some (.fin 0) ∧
      (add a (some (.fin 0)) weight).w = a.w + weight ∧
      (add a (some (.fin 0)) weight).n = a.n + 1 ∧
      (add a (some (.fin 0)) weight).sum = a.sum.jadd (.fin 0) := by
  have h0 : ¬ (0 : ℚ) ≤ q := not_le.mpr h
  have h1 : ¬ (1 : ℚ) < q := not_lt.mpr (by linarith)
  have h5 : ¬ (5 : ℚ) < q := not_lt.mpr (by linarith)
  have h10 : ¬ (10 : ℚ) < q := not_lt.mpr (by linarith)
  refine ⟨?_, ?_, ?_, ?_⟩
  · simp only [normalizeNumberOrRating, JNum.jle_fin_fin, JNum.jlt_fin_fin, Bool.and_eq_true,
      decide_eq_true_eq]
    rw [if_neg (by tauto), if_neg (by tauto), if_neg (by tauto), if_neg (by tauto), clip_fin]
    rw [min_eq_right (by linarith), max_eq_left (by linarith)]
  · show qadd a.w weight = a.w + weight
    exact qadd_eq a.w weight
  · rfl
  · show a.sum.jadd ((clip (.fin 0) (.fin 0) (.fin 100)).jmul (.fin weight)) = a.sum.jadd (.fin 0)
    rw [clip_fin, min_eq_right (by norm_num), max_eq_right (le_refl 0), JNum.jmul_fin_fin,
      qmul_eq, zero_mul]

/-- C10 witness: with `q = -3` and a sample accumulator the negative metric
normalizes to 0 and contributes its weight and count. -/
theorem negative_direct_metric_contributes_witness :
    normalizeNumberOrRating (some (.num (.fin (-3)))) = some (.fin 0) ∧
      (add { sum := .fin 50, w := Rat.divInt 6 100, n := 1 } (some (.fin 0))
          (Rat.divInt 12 100)).w = Rat.divInt 6 100 + Rat.divInt 12 100 ∧
      (add { sum := .fin 50, w := Rat.divInt 6 100, n := 1 } (some (.fin 0))
          (Rat.divInt 12 100)).n = 1 + 1 ∧
      (add { sum := .fin 50, w := Rat.divInt 6 100, n := 1 } (some (.fin 0))
          (Rat.divInt 12 100)).sum = (JNum.fin 50).jadd (.fin 0) :=
  negative_direct_metric_contributes (-3) { sum := .fin 50, w := Rat.divInt 6 100, n := 1 }
    (Rat.divInt 12 100) (by norm_num)

/-- Closed form of the pace triangular score on a finite value: the rounded,
clamped linear falloff from the target 150 with tolerance 50. -/
theorem triangular_eval (v : ℚ) :
    triangularScore (.fin v) (.fin 150) (.fin 50) =
      some (.fin ((⌊(max 0 (min 1 (1 - |v - 150| / 50))) * 100 + 1/2⌋ : ℤ) : ℚ)) := by
  unfold triangularScore
  rw [if_neg (show ¬ (JNum.fin v).isNaN = true from by simp [JNum.isNaN_fin])]
  rw [JNum.jsub_fin_fin, JNum.jabs_fin, JNum.jdiv_fin_fin, if_neg (by norm_num : ¬(50:ℚ) = 0),
    JNum.jsub_fin_fin, clip_fin, JNum.jmul_fin_fin, jround_fin]
  simp only [qsub_eq, qabs_eq, qdiv_eq, qmul_eq]

/-- C8 counterexample: rounding makes the pace score plateau: the deviations
of wpm 150.1 and 150.2 from the target are 0.1 < 0.2, both inside the
tolerance, yet both score exactly 100, so the score does not strictly
decrease as the deviation grows. -/
theorem paceTriangular_not_strict :
    JNum.jlt (((JNum.fin (Rat.divInt 1501 10)).jsub (.fin 150)).jabs)
        (((JNum.fin (Rat.divInt 1502 10)).jsub (.fin 150)).jabs) = true ∧
      triangularScore (.fin (Rat.divInt 1501 10)) (.fin 150) (.fin 50) = some (.fin 100) ∧
      triangularScore (.fin (Rat.divInt 1502 10)) (.fin 150) (.fin 50) = some (.fin 100) := by
  refine ⟨?_, ?_, ?_⟩ <;> decide

/-- C8 (amended): the pace triangular score is antitone (weakly decreasing)
in the deviation `|wpm - 150|`; it is 100 at the target, 0 from deviation 50
onward and never negative; and it decreases strictly whenever the deviation
grows by at least a whole unit within the tolerance (the rounding step only
permits plateaus below that granularity). -/
theorem paceTriangular_monotone (v w : ℚ) (h : |v - 150| ≤ |w - 150|) :
    ∃ sv sw : ℤ,
      triangularScore (.fin v) (.fin 150) (.fin 50) = some (.fin (sv : ℚ)) ∧
      triangularScore (.fin w) (.fin 150) (.fin 50) = some (.fin (sw : ℚ)) ∧
      sw ≤ sv ∧ 0 ≤ sw ∧ sv ≤ 100 ∧
      (50 ≤ |w - 150| → sw = 0) ∧
      (v = 150 → sv = 100) ∧
      (|v - 150| + 1 ≤ |w - 150| → |w - 150| ≤ 50 → sw < sv) := by
  refine ⟨⌊(max 0 (min 1 (1 - |v - 150| / 50))) * 100 + 1/2⌋,
    ⌊(max 0 (min 1 (1 - |w - 150| / 50))) * 100 + 1/2⌋,
    triangular_eval v, triangular_eval w, ?_, ?_, ?_, ?_, ?_, ?_⟩
  · have hmono : max 0 (min 1 (1 - |w - 150| / 50)) ≤ max 0 (min 1 (1 - |v - 150| / 50)) :=
      max_le_max (le_refl 0) (min_le_min (le_refl 1) (by linarith))
    exact Int.floor_le_floor (by linarith)
  · have h1 : (0:ℚ) ≤ max 0 (min 1 (1 - |w - 150| / 50)) := le_max_left _ _
    rw [Int.le_floor]
    push_cast
    nlinarith
  · have h1 : max 0 (min 1 (1 - |v - 150| / 50)) ≤ 1 :=
      max_le (by norm_num) (min_le_left _ _)
    have h2 : (0:ℚ) ≤ max 0 (min 1 (1 - |v - 150| / 50)) := le_max_left _ _
    have h3 : ⌊(max 0 (min 1 (1 - |v - 150| / 50))) * 100 + 1/2⌋ < (101 : ℤ) := by
      rw [Int.floor_lt]
      push_cast
      nlinarith
    omega
  · intro h50
    have hm : min 1 (1 - |w - 150| / 50) ≤ 0 := le_trans (min_le_right _ _) (by linarith)
    rw [max_eq_left hm]
    norm_num
  · rintro rfl
    norm_num
  · intro hstep hcap
    have hv0 : (0:ℚ) ≤ |v - 150| := abs_nonneg _
    have hw0 : (0:ℚ) ≤ |w - 150| := abs_nonneg _
    have huv : max 0 (min 1 (1 - |v - 150| / 50)) = 1 - |v - 150| / 50 := by
      rw [min_eq_right (by linarith), max_eq_right (by linarith)]
    have huw : max 0 (min 1 (1 - |w - 150| / 50)) = 1 - |w - 150| / 50 := by
      rw [min_eq_right (by linarith), max_eq_right (by linarith)]
    rw [huv, huw]
    have hfl : ((⌊(1 - |w - 150| / 50) * 100 + 1/2⌋ : ℤ) : ℚ) ≤
        (1 - |w - 150| / 50) * 100 + 1/2 := Int.floor_le _
    have hfv : (1 - |v - 150| / 50) * 100 + 1/2 - 1 <
        ((⌊(1 - |v - 150| / 50) * 100 + 1/2⌋ : ℤ) : ℚ) := Int.sub_one_lt_floor _
    have hq : ((⌊(1 - |w - 150| / 50) * 100 + 1/2⌋ : ℤ) : ℚ) <
        ((⌊(1 - |v - 150| / 50) * 100 + 1/2⌋ : ℤ) : ℚ) := by linarith
    exact_mod_cast hq

/-- C8 witness: instantiating the monotonicity theorem at wpm 150 and 200:
the deviations are 0 and 50, the first scores 100, the second 0. -/
theorem paceTriangular_monotone_witness :
    |(150:ℚ) - 150| ≤ |(200:ℚ) - 150| ∧
      (∃ sv sw : ℤ, triangularScore (.fin 150) (.fin 150) (.fin 50) = some (.fin (sv : ℚ)) ∧
        triangularScore (.fin 200) (.fin 150) (.fin 50) = some (.fin (sw : ℚ)) ∧
        sw ≤ sv ∧ 0 ≤ sw ∧ sv ≤ 100 ∧ (50 ≤ |(200:ℚ) - 150| → sw = 0) ∧
        ((150:ℚ) = 150 → sv = 100) ∧
        (|(150:ℚ) - 150| + 1 ≤ |(200:ℚ) - 150| → |(200:ℚ) - 150| ≤ 50 → sw < sv)) :=
  ⟨by norm_num, paceTriangular_monotone 150 200 (by norm_num)⟩

end SpeakEasy
